import Mathlib

/-!
Shallow embedding of `src/app.py`, a single-page dashboard that loads a CSV of
pre-computed sentiment-analysis results, derives aggregates (positive rate,
top-discussed aspect, long-format sentiment counts, negative top-5), renders a
word cloud over a selected text subset, and re-exports the table as CSV.

Modelling conventions:
* A CSV file is a list of rows of field strings, header first (`pandas`
  quoting/unquoting of fields is the identity at this level).
* Table cells mirror the dataframe values that arise after `pd.read_csv` plus
  the `pd.to_datetime(..., errors='coerce')` coercion of the `time` column:
  missing values (`null` for NaN, `nt` for NaT), numbers (modelled as
  naturals, the star scores of the data), datetimes (modelled as natural
  timestamps whose textual form is their decimal numeral), and plain strings.
* Rates are rationals; Python float arithmetic on these small fractions is
  exact.
* The chart / word-cloud libraries are black boxes; only the data handed to
  them and the success/failure control flow around them are modelled.
-/

namespace JD

/-- A dataframe cell: NaN, NaT, a number, a datetime, or a string. -/
inductive Cell
  | null
  | nt
  | num (n : Nat)
  | dt (d : Nat)
  | str (s : String)
deriving DecidableEq

/-- The decimal digit characters. -/
def digitToChar : Nat → Char
  | 0 => '0' | 1 => '1' | 2 => '2' | 3 => '3' | 4 => '4'
  | 5 => '5' | 6 => '6' | 7 => '7' | 8 => '8' | _ => '9'

/-- Inverse of `digitToChar` on digit characters. -/
def charToDigit? (c : Char) : Option Nat :=
  if c = '0' then some 0 else if c = '1' then some 1 else if c = '2' then some 2
  else if c = '3' then some 3 else if c = '4' then some 4 else if c = '5' then some 5
  else if c = '6' then some 6 else if c = '7' then some 7 else if c = '8' then some 8
  else if c = '9' then some 9 else none

/-- Little-endian decimal digits of `n`, with explicit fuel. -/
def toDigitsRev : Nat → Nat → List Nat
  | 0, _ => []
  | fuel+1, n => if n = 0 then [] else n % 10 :: toDigitsRev fuel (n / 10)

/-- Decimal numeral of `n`, as characters. -/
def natToChars (n : Nat) : List Char :=
  if n = 0 then ['0'] else ((toDigitsRev n n).map digitToChar).reverse

/-- Decimal numeral of `n`. -/
def natToStr (n : Nat) : String := ⟨natToChars n⟩

/-- Value of a little-endian digit list. -/
def ofDigitsRev : List Nat → Nat
  | [] => 0
  | d :: ds => d + 10 * ofDigitsRev ds

/-- Parse a character list as a decimal natural (all characters must be
digits and the list nonempty), as `pandas` numeric type-inference does. -/
def natOfChars? (cs : List Char) : Option Nat :=
  if cs.isEmpty then none
  else if cs.all (fun c => (charToDigit? c).isSome) then
    some (cs.foldl (fun a c => a * 10 + (charToDigit? c).getD 0) 0)
  else none

/-- Parse a string as a decimal natural. -/
def natOfStr? (s : String) : Option Nat := natOfChars? s.data

theorem charToDigit_digitToChar (d : Nat) (h : d < 10) :
    charToDigit? (digitToChar d) = some d := by
  interval_cases d <;> rfl

theorem toDigitsRev_lt10 : ∀ fuel n d, d ∈ toDigitsRev fuel n → d < 10 := by
  intro fuel
  induction fuel with
  | zero => intro n d h; simp [toDigitsRev] at h
  | succ fuel ih =>
    intro n d h
    rw [toDigitsRev] at h
    by_cases hn : n = 0
    · simp [hn] at h
    · rw [if_neg hn] at h
      rcases List.mem_cons.mp h with h1 | h2
      · subst h1; exact Nat.mod_lt _ (by omega)
      · exact ih _ _ h2

theorem toDigitsRev_zero (fuel : Nat) : toDigitsRev fuel 0 = [] := by
  cases fuel <;> simp [toDigitsRev]

theorem ofDigitsRev_toDigitsRev :
    ∀ fuel n, n ≠ 0 → n ≤ fuel → ofDigitsRev (toDigitsRev fuel n) = n := by
  intro fuel
  induction fuel with
  | zero => intro n h0 hle; omega
  | succ fuel ih =>
    intro n h0 hle
    rw [toDigitsRev, if_neg h0]
    have h10 : 10 * (n / 10) + n % 10 = n := Nat.div_add_mod n 10
    by_cases hq : n / 10 = 0
    · rw [hq, toDigitsRev_zero]
      simp [ofDigitsRev]; omega
    · have hlt : n / 10 < n := Nat.div_lt_self (by omega) (by omega)
      rw [ofDigitsRev, ih (n / 10) hq (by omega)]
      omega

theorem natOfChars_eval (ds : List Nat) (h : ∀ d ∈ ds, d < 10) :
    ((ds.map digitToChar).reverse).foldl (fun a c => a * 10 + (charToDigit? c).getD 0) 0 =
      ofDigitsRev ds := by
  rw [List.foldl_reverse, List.foldr_map]
  induction ds with
  | nil => rfl
  | cons d ds ih =>
    have hd : d < 10 := h d (List.mem_cons_self d ds)
    have ihds := ih (fun x hx => h x (List.mem_cons_of_mem d hx))
    simp only [List.foldr_cons, ihds, ofDigitsRev, charToDigit_digitToChar d hd,
      Option.getD_some]
    omega

theorem natToChars_ne_nil (n : Nat) : natToChars n ≠ [] := by
  rw [natToChars]
  by_cases hn : n = 0
  · simp [hn]
  · rw [if_neg hn]
    intro hcon
    rcases Nat.exists_eq_succ_of_ne_zero hn with ⟨m, rfl⟩
    rw [toDigitsRev, if_neg hn] at hcon
    simp at hcon

theorem natOfStr_natToStr (n : Nat) : natOfStr? (natToStr n) = some n := by
  by_cases hn : n = 0
  · subst hn; rfl
  · have hdata : (natToStr n).data = ((toDigitsRev n n).map digitToChar).reverse := by
      simp [natToStr, natToChars, if_neg hn]
    rw [natOfStr?, hdata, natOfChars?]
    have hne : toDigitsRev n n ≠ [] := by
      rcases Nat.exists_eq_succ_of_ne_zero hn with ⟨m, hm⟩
      rw [hm, toDigitsRev]
      rw [← hm]
      rw [if_neg hn]
      simp
    rw [if_neg (by simp [List.isEmpty_iff, hne])]
    rw [if_pos]
    · rw [natOfChars_eval _ (fun d hd => toDigitsRev_lt10 n n d hd),
        ofDigitsRev_toDigitsRev n n hn (le_refl n)]
    · rw [List.all_eq_true]
      intro c hc
      rw [List.mem_reverse, List.mem_map] at hc
      rcases hc with ⟨d, hd, rfl⟩
      rw [charToDigit_digitToChar d (toDigitsRev_lt10 n n d hd)]
      rfl

theorem natToStr_ne_empty (n : Nat) : natToStr n ≠ "" := by
  intro h
  have := congrArg String.data h
  rw [natToStr] at this
  exact natToChars_ne_nil n this

/-- Parse one CSV field into a cell. For the `time` column this is
`pd.to_datetime(..., errors='coerce')` applied to the raw column (`src/app.py`
lines 49-50): parse failures and missing values become NaT. Elsewhere it is
`pd.read_csv` inference: empty field is NaN, a numeral is a number, anything
else stays a string. -/
def parseCell (isTime : Bool) (s : String) : Cell :=
  if isTime then
    match natOfStr? s with
    | some d => .dt d
    | none => .nt
  else if s = "" then .null
  else
    match natOfStr? s with
    | some n => .num n
    | none => .str s

/-- Serialize one cell back to a CSV field, as `df.to_csv` does: missing
values print as the empty field, numbers and datetimes as their numerals. -/
def printCell : Cell → String
  | .null => ""
  | .nt => ""
  | .num n => natToStr n
  | .dt d => natToStr d
  | .str s => s

theorem parseCell_printCell (b : Bool) (s : String) :
    parseCell b (printCell (parseCell b s)) = parseCell b s := by
  cases b with
  | true =>
    cases h : natOfStr? s with
    | some d =>
      have h1 : parseCell true s = .dt d := by rw [parseCell]; simp [h]
      rw [h1]
      show parseCell true (natToStr d) = Cell.dt d
      rw [parseCell]
      simp [natOfStr_natToStr]
    | none =>
      have h1 : parseCell true s = .nt := by rw [parseCell]; simp [h]
      rw [h1]
      show parseCell true "" = Cell.nt
      rfl
  | false =>
    by_cases hs : s = ""
    · subst hs; rfl
    · cases h : natOfStr? s with
      | some n =>
        have h1 : parseCell false s = .num n := by rw [parseCell]; simp [hs, h]
        rw [h1]
        show parseCell false (natToStr n) = Cell.num n
        rw [parseCell]
        simp [natToStr_ne_empty n, natOfStr_natToStr]
      | none =>
        have h1 : parseCell false s = .str s := by rw [parseCell]; simp [hs, h]
        rw [h1]
        show parseCell false s = Cell.str s
        exact h1

/-- The loaded dataframe: column names and rows of cells. -/
structure Table where
  header : List String
  rows : List (List Cell)
deriving DecidableEq

/-- Parse one raw CSV record against the header, position by position:
missing trailing fields read as empty (NaN), and the column named `time` goes
through the datetime coercion. -/
def parseRow : List String → List String → List Cell
  | [], _ => []
  | name :: hs, r => parseCell (name == "time") (r.headD "") :: parseRow hs r.tail

/-- The record width `pd.read_csv`'s tokenizer expects: the header's width,
widened by the first record via the implicit-index rule (when the first
record has extra fields, the extra leading fields become the row index). -/
def expectedWidth (header : List String) (body : List (List String)) : Nat :=
  max header.length (body.headD []).length

/-- `load_data` (`src/app.py` lines 44-53): `pd.read_csv` followed by the
`time`-column coercion; a parse failure is caught and yields `none`. An
empty file raises `EmptyDataError`; a record wider than the expected width
raises `ParserError`; a first record wider than the header loads via the
implicit-index rule, whose index fields the model drops since the dashboard
reads only named columns; shorter records pad with NaN. -/
def load_data (raw : List (List String)) : Option Table :=
  match raw with
  | [] => none
  | header :: body =>
    if body.any (fun r => expectedWidth header body < r.length) then none
    else some ⟨header, body.map (fun r =>
      parseRow header (r.drop (expectedWidth header body - header.length)))⟩

/-- The CSV download (`src/app.py` line 228): `df.to_csv(index=False)`,
header line first then each row's cells serialized. The `utf-8-sig`
byte-order mark sits below this level of abstraction (it decorates the byte
stream, not the field contents). -/
def exportCsv (t : Table) : List (List String) :=
  t.header :: t.rows.map (fun r => r.map printCell)

theorem parseRow_length : ∀ (hs : List String) (r : List String),
    (parseRow hs r).length = hs.length := by
  intro hs
  induction hs with
  | nil => intro r; rfl
  | cons name hs ih => intro r; simp [parseRow, ih]

theorem parseRow_roundtrip : ∀ (hs : List String) (r : List String),
    parseRow hs ((parseRow hs r).map printCell) = parseRow hs r := by
  intro hs
  induction hs with
  | nil => intro r; rfl
  | cons name hs ih =>
    intro r
    simp only [parseRow, List.map_cons, List.headD_cons, List.tail_cons]
    rw [parseCell_printCell, ih]

theorem load_data_exportCsv (header : List String) (rows : List (List Cell))
    (hlen : ∀ r ∈ rows, r.length = header.length)
    (hfix : ∀ r ∈ rows, parseRow header (r.map printCell) = r) :
    load_data (exportCsv ⟨header, rows⟩) = some ⟨header, rows⟩ := by
  rw [exportCsv, load_data]
  have hlenE : ∀ s ∈ rows.map (fun r => r.map printCell), s.length = header.length := by
    intro s hs
    rw [List.mem_map] at hs
    rcases hs with ⟨r, hr, rfl⟩
    rw [List.length_map]
    exact hlen r hr
  have hwE : expectedWidth header (rows.map (fun r => r.map printCell)) = header.length := by
    rw [expectedWidth]
    apply Nat.max_eq_left
    cases hE : rows.map (fun r => r.map printCell) with
    | nil => simp
    | cons a l =>
      rw [List.headD_cons]
      exact Nat.le_of_eq (hlenE a (by rw [hE]; exact List.mem_cons_self a l))
  rw [if_neg ?_]
  · rw [hwE, Nat.sub_self]
    have hrows : (rows.map (fun r => r.map printCell)).map
        (fun s => parseRow header (s.drop 0)) = rows := by
      rw [List.map_map]
      conv_rhs => rw [← List.map_id rows]
      rw [List.map_eq_map_iff]
      intro r hr
      simp only [Function.comp, List.drop_zero, id]
      exact hfix r hr
    rw [hrows]
  · rw [List.any_eq_true]
    rintro ⟨s, hs, hlt⟩
    rw [hlenE s hs, hwE] at hlt
    simp only [decide_eq_true_eq] at hlt
    omega

theorem load_data_roundtrip_aux (raw : List (List String)) (t : Table)
    (h : load_data raw = some t) : load_data (exportCsv t) = some t := by
  match raw with
  | [] => simp [load_data] at h
  | header :: body =>
    rw [load_data] at h
    by_cases hchk : body.any (fun r => expectedWidth header body < r.length)
    · rw [if_pos hchk] at h; cases h
    · rw [if_neg hchk] at h
      injection h with h'
      subst h'
      apply load_data_exportCsv
      · intro r hr
        rw [List.mem_map] at hr
        rcases hr with ⟨r0, _, rfl⟩
        exact parseRow_length header _
      · intro r hr
        rw [List.mem_map] at hr
        rcases hr with ⟨r0, _, rfl⟩
        exact parseRow_roundtrip header _

/-- The 18 aspect dimensions (`src/app.py` lines 23-29). -/
def LABEL_COLUMNS : List String :=
  ["Location#Transportation", "Location#Downtown", "Location#Easy_to_find",
   "Service#Queue", "Service#Hospitality", "Service#Parking", "Service#Timely",
   "Price#Level", "Price#Cost_effective", "Price#Discount",
   "Ambience#Decoration", "Ambience#Noise", "Ambience#Space", "Ambience#Sanitary",
   "Food#Portion", "Food#Taste", "Food#Appearance", "Food#Recommend"]

/-- Display-name mapping (`src/app.py` lines 32-38). -/
def ASPECT_MAP : List (String × String) :=
  [("Food#Taste", "味道/口感"), ("Food#Portion", "分量"), ("Food#Appearance", "外观"),
   ("Food#Recommend", "总体推荐"), ("Price#Level", "价格水平"),
   ("Price#Cost_effective", "性价比"), ("Price#Discount", "折扣优惠"),
   ("Service#Timely", "物流/时效"), ("Service#Hospitality", "服务态度"),
   ("Service#Queue", "排队"), ("Ambience#Decoration", "包装/环境"),
   ("Ambience#Sanitary", "卫生")]

/-- `ASPECT_MAP.get(col, col)`. -/
def aspectName (col : String) : String :=
  match ASPECT_MAP.find? (fun p => p.1 == col) with
  | some p => p.2
  | none => col

/-- `df[name]` at one row: the cell in the first column called `name`. -/
def cellAt (header : List String) (row : List Cell) (name : String) : Option Cell :=
  (header.findIdx? (fun c => c == name)).bind (fun i => row[i]?)

/-- `df[df[col] != '未提及'].shape[0]` (`src/app.py` line 112): rows whose
label in `col` differs from the not-mentioned marker (NaN counts as
mentioned, as in `pandas`). -/
def mentionedCount (t : Table) (col : String) : Nat :=
  t.rows.countP (fun r => !(cellAt t.header r col == some (Cell.str "未提及")))

/-- Python's `max(..., key=f)` accumulator: keeps the current best unless a
strictly larger element appears, so the first of several ties wins. -/
def maxKeyAux (f : String → Nat) : List String → String → String
  | [], best => best
  | x :: xs, best => maxKeyAux f xs (if f best < f x then x else best)

/-- `max(counts, key=counts.get)` over a list of keys in order. -/
def maxKey (f : String → Nat) : List String → Option String
  | [] => none
  | x :: xs => some (maxKeyAux f xs x)

/-- `top_aspect` (`src/app.py` lines 110-113): the dimension maximizing the
mentioned-count, insertion order breaking ties. -/
def top_aspect (t : Table) : String :=
  (maxKey (mentionedCount t) LABEL_COLUMNS).getD ""

/-- `df['score'] >= 4` at one row (NaN and non-numbers compare false). -/
def scoreGe4 (t : Table) (r : List Cell) : Bool :=
  match cellAt t.header r "score" with
  | some (.num n) => decide (4 ≤ n)
  | _ => false

/-- `df['score'] <= 2` at one row. -/
def scoreLe2 (t : Table) (r : List Cell) : Bool :=
  match cellAt t.header r "score" with
  | some (.num n) => decide (n ≤ 2)
  | _ => false

/-- Numerator of the score branch of the positive-rate KPI. -/
def countScoreGe4 (t : Table) : Nat := t.rows.countP (scoreGe4 t)

/-- `df['Food#Recommend'] == '正面'` at one row. -/
def recPositive (t : Table) (r : List Cell) : Bool :=
  cellAt t.header r "Food#Recommend" == some (Cell.str "正面")

/-- `positive_rate` (`src/app.py` lines 95-102): score-based fraction when a
`score` column exists, else the Food#Recommend-based fraction, times 100. -/
def positive_rate (t : Table) : ℚ :=
  if "score" ∈ t.header then
    (countScoreGe4 t : ℚ) / (t.rows.length : ℚ) * 100
  else
    (t.rows.countP (recPositive t) : ℚ) / (t.rows.length : ℚ) * 100

/-- One record of the long-format aggregate `plot_data`
(`src/app.py` lines 131-136). -/
structure PlotRow where
  dim : String
  rawDim : String
  senti : String
  cnt : Nat
deriving DecidableEq

/-- `df[col].value_counts().get(s, 0)`: rows of `col` equal to label `s`. -/
def countLabel (t : Table) (col s : String) : Nat :=
  t.rows.countP (fun r => cellAt t.header r col == some (Cell.str s))

/-- The sentiment iteration order of the `plot_data` loop (line 128). -/
def SENTIMENTS : List String := ["正面", "负面", "中性"]

/-- The `plot_data` entries contributed by one dimension: one per sentiment
with a nonzero count, in sentiment order. -/
def entriesFor (t : Table) (col : String) : List PlotRow :=
  SENTIMENTS.filterMap (fun s =>
    if 0 < countLabel t col s then
      some ⟨aspectName col, col, s, countLabel t col s⟩
    else none)

/-- `plot_data` (`src/app.py` lines 124-136): for each dimension in order,
the nonzero sentiment counts. -/
def plot_data (t : Table) : List PlotRow :=
  LABEL_COLUMNS.flatMap (entriesFor t)

/-- The ranking chart's per-dimension total (`src/app.py` line 157):
`df_plot.groupby('维度')['评论数'].sum()` read off at one display name. -/
def aspect_total (t : Table) (disp : String) : Nat :=
  (((plot_data t).filter (fun p => p.dim == disp)).map (fun p => p.cnt)).sum

/-- Descending comparison on counts used for `sort_values(ascending=False)`. -/
def negSortLe (a b : PlotRow) : Bool := decide (b.cnt ≤ a.cnt)

/-- `neg_counts` (`src/app.py` line 169): negative-sentiment entries of
`df_plot`, sorted by count descending, first five kept. -/
def neg_counts (t : Table) : List PlotRow :=
  (((plot_data t).filter (fun p => p.senti == "负面")).mergeSort negSortLe).take 5

/-- What section 4 of the dashboard displays. -/
inductive NegView
  | successBadge
  | chart (rows : List PlotRow)
deriving DecidableEq

/-- `src/app.py` lines 171-179: a bar chart when `neg_counts` is nonempty,
otherwise the `st.success` badge. -/
def renderNegSection (t : Table) : NegView :=
  if neg_counts t = [] then .successBadge else .chart (neg_counts t)

/-- The word-cloud radio selection (`src/app.py` line 188). -/
inductive WcMode
  | all
  | pos
  | neg
deriving DecidableEq

/-- The rows whose `content` feeds the word cloud (`src/app.py` lines
190-199): score-filtered when a `score` column exists, else all rows. -/
def wcRows (t : Table) : WcMode → List (List Cell)
  | .pos => if "score" ∈ t.header then t.rows.filter (scoreGe4 t) else t.rows
  | .neg => if "score" ∈ t.header then t.rows.filter (scoreLe2 t) else t.rows
  | .all => t.rows

/-- `astype(str)` on one cell. -/
def cellStr : Cell → String
  | .null => "nan"
  | .nt => "NaT"
  | .num n => natToStr n
  | .dt d => natToStr d
  | .str s => s

/-- The `content` field of one row, as text. -/
def rowText (t : Table) (r : List Cell) : String :=
  cellStr ((cellAt t.header r "content").getD .null)

/-- `text_content` (`src/app.py` lines 190-199): `" ".join(...)` over the
selected rows' content. -/
def text_content (t : Table) (m : WcMode) : String :=
  String.intercalate " " ((wcRows t m).map (rowText t))

/-- What the word-cloud section displays. -/
inductive WcOutcome
  | skipped
  | image
  | errorMsg
deriving DecidableEq

/-- `src/app.py` lines 201-217: empty text fails the `if text_content:`
guard and renders nothing; otherwise the `try` block either shows the image
or catches the generation failure (`genOk = false`: missing font, generator
error) and shows `st.error`. -/
def renderWordCloud (genOk : Bool) (txt : String) : WcOutcome :=
  if txt = "" then .skipped
  else if genOk then .image else .errorMsg

/-- A time cell carrying an actual datetime (non-NaT). -/
def isValidTime : Cell → Bool
  | .dt _ => true
  | _ => false

/-- The `time` column of the table, when present. -/
def timeColumn (t : Table) : Option (List Cell) :=
  (t.header.findIdx? (fun c => c == "time")).map
    (fun i => t.rows.map (fun r => (r[i]?).getD .null))

/-- `src/app.py` lines 77-81: the date-range control appears only when a
`time` column exists and its min/max are non-null, i.e. some valid datetime
exists. -/
def dateFilterShown (t : Table) : Bool :=
  match timeColumn t with
  | none => false
  | some col => col.any isValidTime

/-- How one run of the script ends. -/
inductive FlowOutcome
  | halted
  | crashed
  | rendered
deriving DecidableEq

/-- The body of the script after a table is bound to `df`: `len(df)` then the
positive-rate division (ZeroDivisionError on zero rows), the KPI column
accesses, the `plot_data` loop and the word cloud (KeyError on any missing
required column); when `plot_data` is empty, `df_plot` is a columnless
frame and `groupby('维度')` at line 157 raises KeyError. -/
def runDashboard (t : Table) : FlowOutcome :=
  if t.rows.length = 0 then .crashed
  else if "score" ∉ t.header ∧ "Food#Recommend" ∉ t.header then .crashed
  else if ¬ (∀ c ∈ LABEL_COLUMNS, c ∈ t.header) then .crashed
  else if plot_data t = [] then .crashed
  else if "content" ∉ t.header then .crashed
  else .rendered

/-- `src/app.py` lines 65-73 and onward: pick the upload, else the default
file, else stop with an error; a `None` result of `load_data` is never
checked, so the very next access `df.columns` (line 77) raises. -/
def mainFlow (upload defFile : Option (List (List String))) : FlowOutcome :=
  match upload with
  | some raw =>
    match load_data raw with
    | none => .crashed
    | some t => runDashboard t
  | none =>
    match defFile with
    | some raw =>
      match load_data raw with
      | none => .crashed
      | some t => runDashboard t
    | none => .halted

/-- A cell of the coerced `time` column: a datetime or NaT. -/
def timeCellOk : Cell → Bool
  | .dt _ => true
  | .nt => true
  | _ => false

/-! ### Helper lemmas -/

theorem findIdx?_eq_none_of_not_mem (l : List String) (name : String) (h : name ∉ l) :
    l.findIdx? (fun c => c == name) = none := by
  induction l with
  | nil => rfl
  | cons a l ih =>
    have hne : (a == name) = false := by
      rw [beq_eq_false_iff_ne]
      intro e
      subst e
      exact h (List.mem_cons_self _ _)
    rw [List.findIdx?_cons, hne, if_neg (by simp), List.findIdx?_start_succ,
      ih (fun hm => h (List.mem_cons_of_mem a hm))]
    rfl

theorem load_data_rows_shape (raw : List (List String)) (t : Table)
    (h : load_data raw = some t) :
    ∀ r ∈ t.rows, ∃ r0, r = parseRow t.header r0 := by
  match raw with
  | [] => simp [load_data] at h
  | header :: body =>
    rw [load_data] at h
    by_cases hchk : body.any (fun r => expectedWidth header body < r.length)
    · rw [if_pos hchk] at h; cases h
    · rw [if_neg hchk] at h
      injection h with h'
      subst h'
      intro r hr
      obtain ⟨r0, _, rfl⟩ := List.mem_map.mp hr
      exact ⟨r0.drop (expectedWidth header body - header.length), rfl⟩

theorem parseRow_getElem : ∀ (hs : List String) (r : List String) (i : Nat),
    (parseRow hs r)[i]? =
      (hs[i]?).map (fun name => parseCell (name == "time") ((r[i]?).getD "")) := by
  intro hs
  induction hs with
  | nil => intro r i; simp [parseRow]
  | cons name hs ih =>
    intro r i
    cases i with
    | zero =>
      cases r <;> simp [parseRow]
    | succ i =>
      simp only [parseRow, List.getElem?_cons_succ, ih, List.getElem?_tail]

/-! ### Claims -/

/-- The concrete table for the C1 witness: 10 rows, 6 of score at least 4. -/
def exC1 : Table :=
  ⟨["score"],
   [[Cell.num 5], [Cell.num 5], [Cell.num 4], [Cell.num 4], [Cell.num 5], [Cell.num 4],
    [Cell.num 1], [Cell.num 2], [Cell.num 3], [Cell.num 1]]⟩

/-- C1: for every non-empty table with a `score` column, the positive-rate
KPI equals the score-based formula (rows with score at least 4 over total,
times 100) regardless of label values, lies in [0,100], and for 10 rows of
which 6 have score at least 4 it is 60. -/
theorem C1_positive_rate (t : Table) (hs : "score" ∈ t.header)
    (hn : 0 < t.rows.length) :
    positive_rate t = (countScoreGe4 t : ℚ) / (t.rows.length : ℚ) * 100
    ∧ 0 ≤ positive_rate t ∧ positive_rate t ≤ 100
    ∧ (t.rows.length = 10 → countScoreGe4 t = 6 → positive_rate t = 60) := by
  have hform : positive_rate t = (countScoreGe4 t : ℚ) / (t.rows.length : ℚ) * 100 := by
    rw [positive_rate, if_pos hs]
  have hcnt : countScoreGe4 t ≤ t.rows.length := List.countP_le_length (scoreGe4 t)
  have hlen0 : (0 : ℚ) < (t.rows.length : ℚ) := by exact_mod_cast hn
  refine ⟨hform, ?_, ?_, ?_⟩
  · rw [hform]
    positivity
  · rw [hform]
    have h1 : (countScoreGe4 t : ℚ) / (t.rows.length : ℚ) ≤ 1 := by
      rw [div_le_one hlen0]
      exact_mod_cast hcnt
    calc (countScoreGe4 t : ℚ) / (t.rows.length : ℚ) * 100
        ≤ 1 * 100 := by
          apply mul_le_mul_of_nonneg_right h1
          norm_num
      _ = 100 := by norm_num
  · intro h10 h6
    rw [hform, h10, h6]
    norm_num

/-- Witness for C1 at the 10-row, 6-positive table: the rate is 60. -/
theorem C1_positive_rate_witness :
    "score" ∈ exC1.header ∧ 0 < exC1.rows.length ∧ positive_rate exC1 = 60 :=
  ⟨by decide, by decide,
   (C1_positive_rate exC1 (by decide) (by decide)).2.2.2 (by decide) (by decide)⟩

/-- The concrete table for the C4 witness. -/
def exC4 : Table := ⟨["Food#Taste"], [[Cell.str "正面"]]⟩

/-- The `plot_data` entry produced by `exC4`. -/
def exPlotRow : PlotRow := ⟨"味道/口感", "Food#Taste", "正面", 1⟩

/-- C4: every entry of the long-format aggregate has one of the sentiments
positive/negative/neutral and a nonzero count. -/
theorem C4_plot_data_inv (t : Table) (p : PlotRow) (hp : p ∈ plot_data t) :
    (p.senti = "正面" ∨ p.senti = "负面" ∨ p.senti = "中性") ∧ p.cnt ≠ 0 := by
  rw [plot_data, List.mem_flatMap] at hp
  rcases hp with ⟨col, _, hent⟩
  rw [entriesFor, List.mem_filterMap] at hent
  rcases hent with ⟨s, hsmem, hsp⟩
  by_cases h0 : 0 < countLabel t col s
  · rw [if_pos h0] at hsp
    injection hsp with h
    subst h
    refine ⟨?_, by simp; omega⟩
    simp only [SENTIMENTS, List.mem_cons, List.not_mem_nil, or_false] at hsmem
    simpa using hsmem
  · rw [if_neg h0] at hsp
    cases hsp

/-- Witness for C4 at a concrete table and aggregate entry. -/
theorem C4_plot_data_inv_witness :
    exPlotRow ∈ plot_data exC4
    ∧ (exPlotRow.senti = "正面" ∨ exPlotRow.senti = "负面" ∨ exPlotRow.senti = "中性")
    ∧ exPlotRow.cnt ≠ 0 := by
  refine ⟨by decide, C4_plot_data_inv exC4 exPlotRow (by decide)⟩

/-- C5: re-loading the exported CSV of a loaded table reproduces it
row for row (the byte-order mark lives on the byte stream, below this
field-level model). -/
theorem C5_csv_roundtrip (raw : List (List String)) (t : Table)
    (h : load_data raw = some t) : load_data (exportCsv t) = some t :=
  load_data_roundtrip_aux raw t h

/-- The raw CSV for the C5 witness: a datetime, an invalid datetime, a
number, a missing field and plain strings. -/
def exC5raw : List (List String) :=
  [["time", "score", "content"],
   ["20230101", "5", "很好吃"],
   ["oops", "", "正面"]]

/-- The table `exC5raw` loads to. -/
def exC5t : Table :=
  ⟨["time", "score", "content"],
   [[Cell.dt 20230101, Cell.num 5, Cell.str "很好吃"],
    [Cell.nt, Cell.null, Cell.str "正面"]]⟩

/-- Witness for C5: the concrete round trip. -/
theorem C5_csv_roundtrip_witness :
    load_data exC5raw = some exC5t ∧ load_data (exportCsv exC5t) = some exC5t :=
  ⟨by decide, C5_csv_roundtrip exC5raw exC5t (by decide)⟩

/-- C6: the word-cloud text subset follows the three-way mode: score-based
filters (at least 4 / at most 2) when a `score` column exists, the full row
set otherwise, and always the full row set in `all` mode; the text is the
space-join of the selected rows' content. -/
theorem C6_wc_selection (t : Table) :
    ("score" ∈ t.header →
       wcRows t .pos = t.rows.filter (scoreGe4 t)
       ∧ wcRows t .neg = t.rows.filter (scoreLe2 t))
    ∧ ("score" ∉ t.header →
       wcRows t .pos = t.rows ∧ wcRows t .neg = t.rows)
    ∧ wcRows t .all = t.rows
    ∧ (∀ m, text_content t m = String.intercalate " " ((wcRows t m).map (rowText t))) := by
  refine ⟨fun h => ⟨?_, ?_⟩, fun h => ⟨?_, ?_⟩, rfl, fun m => rfl⟩ <;> simp [wcRows, h]

/-- The concrete table for the C6 witness. -/
def exC6 : Table :=
  ⟨["score", "content"], [[Cell.num 5, Cell.str "好"], [Cell.num 1, Cell.str "差"]]⟩

/-- Witness for C6: with a score column the positive mode keeps exactly the
rows of score at least 4. -/
theorem C6_wc_selection_witness :
    "score" ∈ exC6.header
    ∧ wcRows exC6 WcMode.pos = exC6.rows.filter (scoreGe4 exC6)
    ∧ wcRows exC6 WcMode.pos = [[Cell.num 5, Cell.str "好"]] :=
  ⟨by decide, ((C6_wc_selection exC6).1 (by decide)).1,
   (((C6_wc_selection exC6).1 (by decide)).1).trans (by decide)⟩

/-- An empty uploaded CSV: `pd.read_csv` raises `EmptyDataError`, so
`load_data` returns `None`. -/
def exC8empty : List (List String) := []

/-- A ragged CSV: the expected record width is one field (header `score`,
first record one field), so the three-field third line raises
`ParserError` and `load_data` returns `None`. -/
def exC8ragged : List (List String) := [["score"], ["5"], ["1", "x", "y"]]

/-- A CSV with a header and no data rows: it loads as an empty frame. -/
def exC8hdr : List (List String) := [["score"]]

/-- C8 (code evidence): on a malformed CSV (empty file, ragged records),
`load_data` does return the null result, but the caller never checks it and
crashes at `df.columns` instead of halting; on a loaded table with zero
rows the aggregator runs into the zero division and crashes instead of
halting. -/
theorem C8_load_failure_crashes :
    load_data exC8empty = none
    ∧ mainFlow (some exC8empty) none = FlowOutcome.crashed
    ∧ mainFlow (some exC8empty) none ≠ FlowOutcome.halted
    ∧ load_data exC8ragged = none
    ∧ mainFlow (some exC8ragged) none = FlowOutcome.crashed
    ∧ mainFlow (some exC8ragged) none ≠ FlowOutcome.halted
    ∧ load_data exC8hdr = some (Table.mk ["score"] [])
    ∧ mainFlow (some exC8hdr) none = FlowOutcome.crashed
    ∧ mainFlow (some exC8hdr) none ≠ FlowOutcome.halted := by
  decide

/-- C9: when the loaded table has no `time` column the date-range control is
simply omitted, and when a `time` column exists every one of its cells was
coerced to a datetime or the NaT placeholder (the load never aborts). -/
theorem C9_time_handling (raw : List (List String)) (t : Table)
    (h : load_data raw = some t) :
    ("time" ∉ t.header → dateFilterShown t = false)
    ∧ (∀ r ∈ t.rows, ∀ i : Nat, t.header[i]? = some "time" →
         ∃ c : Cell, r[i]? = some c ∧ timeCellOk c = true) := by
  have hshape := load_data_rows_shape raw t h
  constructor
  · intro hnot
    rw [dateFilterShown, timeColumn, findIdx?_eq_none_of_not_mem t.header "time" hnot]
    rfl
  · intro r hr i hname
    obtain ⟨r0, rfl⟩ := hshape r hr
    rw [parseRow_getElem, hname]
    refine ⟨parseCell ("time" == "time") ((r0[i]?).getD ""), rfl, ?_⟩
    rw [show ("time" == "time") = true from rfl, parseCell]
    cases hnum : natOfStr? ((r0[i]?).getD "") <;> simp [hnum, timeCellOk]

/-- The raw CSV without a `time` column for the C9 witness. -/
def exC9a : List (List String) := [["content"], ["hi"]]

/-- The raw CSV with an unparsable `time` value for the C9 witness. -/
def exC9b : List (List String) := [["time"], ["xyz"]]

/-- Witness for C9: no `time` column omits the filter; an invalid `time`
value loads as the NaT placeholder. -/
theorem C9_time_handling_witness :
    dateFilterShown (Table.mk ["content"] [[Cell.str "hi"]]) = false
    ∧ ∃ c, [Cell.nt][0]? = some c ∧ timeCellOk c = true := by
  constructor
  · exact (C9_time_handling exC9a (Table.mk ["content"] [[Cell.str "hi"]]) (by decide)).1
      (by decide)
  · exact (C9_time_handling exC9b (Table.mk ["time"] [[Cell.nt]]) (by decide)).2
      [Cell.nt] (by decide) 0 (by decide)

theorem maxKeyAux_first (f : String → Nat) :
    ∀ (xs pre mid : List String) (best : String),
      (∀ b ∈ pre, f b < f best) →
      (∀ b ∈ mid, f b ≤ f best) →
      (pre ++ best :: (mid ++ xs)).find?
          (fun c => (pre ++ best :: (mid ++ xs)).all (fun c2 => decide (f c2 ≤ f c)))
        = some (maxKeyAux f xs best) := by
  intro xs
  induction xs with
  | nil =>
    intro pre mid best hpre hmid
    rw [maxKeyAux, List.find?_append]
    have hLpre : pre.find?
        (fun c => (pre ++ best :: (mid ++ [])).all (fun c2 => decide (f c2 ≤ f c))) = none := by
      rw [List.find?_eq_none]
      intro b hb
      simp only [List.all_eq_true, decide_eq_true_eq, not_forall]
      refine ⟨best, ?_, ?_⟩
      · simp
      · have := hpre b hb
        omega
    rw [hLpre, Option.none_or, List.find?_cons_of_pos]
    simp only [List.all_eq_true, decide_eq_true_eq]
    intro c2 hc2
    rcases List.mem_append.mp hc2 with h1 | h2
    · exact le_of_lt (hpre c2 h1)
    · rcases List.mem_cons.mp h2 with h3 | h4
      · subst h3; exact le_refl _
      · rw [List.append_nil] at h4
        exact hmid c2 h4
  | cons x xs ih =>
    intro pre mid best hpre hmid
    rw [maxKeyAux]
    by_cases hx : f best < f x
    · rw [if_pos hx]
      have hpre' : ∀ b ∈ pre ++ best :: mid, f b < f x := by
        intro b hb
        rcases List.mem_append.mp hb with h1 | h2
        · exact lt_trans (hpre b h1) hx
        · rcases List.mem_cons.mp h2 with h3 | h4
          · subst h3; exact hx
          · exact lt_of_le_of_lt (hmid b h4) hx
      have := ih (pre ++ best :: mid) [] x hpre' (by simp)
      have hL : pre ++ best :: (mid ++ x :: xs) = (pre ++ best :: mid) ++ x :: ([] ++ xs) := by
        simp
      rw [hL]
      exact this
    · rw [if_neg hx]
      have hmid' : ∀ b ∈ mid ++ [x], f b ≤ f best := by
        intro b hb
        rcases List.mem_append.mp hb with h1 | h2
        · exact hmid b h1
        · rcases List.mem_cons.mp h2 with h3 | h4
          · subst h3; omega
          · cases h4
      have := ih pre (mid ++ [x]) best hpre hmid'
      have hL : pre ++ best :: (mid ++ x :: xs) = pre ++ best :: ((mid ++ [x]) ++ xs) := by
        simp
      rw [hL]
      exact this

theorem maxKey_eq_firstMax (f : String → Nat) (l : List String) :
    l.find? (fun c => l.all (fun c2 => decide (f c2 ≤ f c))) = maxKey f l := by
  cases l with
  | nil => rfl
  | cons x xs =>
    have := maxKeyAux_first f xs [] [] x (by simp) (by simp)
    rw [show ([] : List String) ++ x :: (([] : List String) ++ xs) = x :: xs from by simp]
      at this
    exact this

/-- C2: the top-discussed aspect is the first dimension of the fixed
18-element list whose mentioned-count (rows differing from the
not-mentioned marker) is maximal: the strict maximum when unique, the
earliest in list order among ties. -/
theorem C2_top_aspect (t : Table) :
    LABEL_COLUMNS.find? (fun c =>
        LABEL_COLUMNS.all (fun c2 =>
          decide (mentionedCount t c2 ≤ mentionedCount t c)))
      = some (top_aspect t) := by
  rw [maxKey_eq_firstMax]
  rfl

/-- C3: the negative-top-5 list has at most five entries, is sorted in
descending count order, and when the aggregate has no negative entries it is
empty and the section shows the success badge instead of a chart (nothing is
raised: the renderer is total). -/
theorem C3_neg_top5 (t : Table) :
    (neg_counts t).length ≤ 5
    ∧ (neg_counts t).Pairwise (fun a b => b.cnt ≤ a.cnt)
    ∧ ((plot_data t).filter (fun p => p.senti == "负面") = [] →
        neg_counts t = [] ∧ renderNegSection t = NegView.successBadge) := by
  refine ⟨?_, ?_, ?_⟩
  · rw [neg_counts]
    exact List.length_take_le 5 _
  · have hs : (((plot_data t).filter (fun p => p.senti == "负面")).mergeSort
        negSortLe).Pairwise (fun a b => negSortLe a b = true) := by
      apply List.sorted_mergeSort
      · intro a b c h1 h2
        simp only [negSortLe, decide_eq_true_eq] at h1 h2 ⊢
        omega
      · intro a b
        simp only [negSortLe]
        rcases Nat.le_total b.cnt a.cnt with h | h
        · simp [h]
        · simp [h]
    have ht : (neg_counts t).Pairwise (fun a b => negSortLe a b = true) := by
      rw [neg_counts]
      exact List.Pairwise.sublist (List.take_sublist 5 _) hs
    exact ht.imp (fun h => by simpa [negSortLe] using h)
  · intro hemp
    have h1 : neg_counts t = [] := by
      rw [neg_counts, hemp, List.mergeSort_nil, List.take_nil]
    exact ⟨h1, by rw [renderNegSection, if_pos h1]⟩

/-- The concrete table for the C3 witness: no negative label anywhere. -/
def exC3 : Table := ⟨["Food#Taste"], [[Cell.str "正面"]]⟩

/-- Witness for C3 at a table without negative entries. -/
theorem C3_neg_top5_witness :
    neg_counts exC3 = [] ∧ renderNegSection exC3 = NegView.successBadge :=
  (C3_neg_top5 exC3).2.2 (by decide)

/-- The concrete table for the C7 counterexample: with only a five-star row,
the negative-only mode selects no text at all. -/
def exC7 : Table := ⟨["score", "content"], [[Cell.num 5, Cell.str "很好"]]⟩

/-- C7 counterexample: with zero rows of text in negative-only mode the
selected text is empty, the `if text_content:` guard fails and the section
is silently skipped — no inline error message is shown, contradicting the
claimed scenario (even when generation would fail). -/
theorem C7_counterexample :
    text_content exC7 WcMode.neg = ""
    ∧ renderWordCloud false (text_content exC7 WcMode.neg) = WcOutcome.skipped
    ∧ renderWordCloud false (text_content exC7 WcMode.neg) ≠ WcOutcome.errorMsg := by
  decide

/-- C7 as amended: a word-cloud generation failure on a nonempty selected
text is caught and reported as a visible inline error instead of a crash,
while an empty selected text silently skips the section — no error, no
crash. -/
theorem C7_wc_error_handling (g : Bool) (t : Table) (m : WcMode) :
    (text_content t m ≠ "" →
       renderWordCloud false (text_content t m) = WcOutcome.errorMsg)
    ∧ (text_content t m = "" →
       renderWordCloud g (text_content t m) = WcOutcome.skipped) := by
  constructor
  · intro h
    rw [renderWordCloud, if_neg h]
    rfl
  · intro h
    rw [renderWordCloud, if_pos h]

/-- The concrete table for the C7 witness: one one-star row, so the
negative-only text is nonempty. -/
def exC7b : Table := ⟨["score", "content"], [[Cell.num 1, Cell.str "差"]]⟩

/-- Witness for the amended C7: a failing generation on nonempty text shows
the inline error. -/
theorem C7_wc_error_handling_witness :
    renderWordCloud false (text_content exC7b WcMode.neg) = WcOutcome.errorMsg :=
  (C7_wc_error_handling false exC7b WcMode.neg).1 (by decide)

/-- Membership of a label cell in the closed four-value label set. -/
def inFourSet (c : Option Cell) : Bool :=
  c == some (Cell.str "正面") || c == some (Cell.str "负面")
    || c == some (Cell.str "中性") || c == some (Cell.str "未提及")

/-- Rows whose label in `col` falls outside the four-value set (including
NaN and missing cells): mentioned but charted nowhere. -/
def strayCount (t : Table) (col : String) : Nat :=
  t.rows.countP (fun r => !(inFourSet (cellAt t.header r col)))

theorem cell_bucket (x : Option Cell) :
    ((if !(x == some (Cell.str "未提及")) then 1 else 0) : Nat)
      = (if x == some (Cell.str "正面") then 1 else 0)
        + (if x == some (Cell.str "负面") then 1 else 0)
        + (if x == some (Cell.str "中性") then 1 else 0)
        + (if !(inFourSet x) then 1 else 0) := by
  by_cases h1 : x = some (Cell.str "正面")
  · subst h1; decide
  by_cases h2 : x = some (Cell.str "负面")
  · subst h2; decide
  by_cases h3 : x = some (Cell.str "中性")
  · subst h3; decide
  by_cases h4 : x = some (Cell.str "未提及")
  · subst h4; decide
  have e1 := beq_eq_false_iff_ne.mpr h1
  have e2 := beq_eq_false_iff_ne.mpr h2
  have e3 := beq_eq_false_iff_ne.mpr h3
  have e4 := beq_eq_false_iff_ne.mpr h4
  simp [inFourSet, e1, e2, e3, e4]

theorem mentioned_decomp (t : Table) (col : String) :
    mentionedCount t col
      = countLabel t col "正面" + countLabel t col "负面" + countLabel t col "中性"
        + strayCount t col := by
  rw [mentionedCount, countLabel, countLabel, countLabel, strayCount]
  induction t.rows with
  | nil => rfl
  | cons r rows ih =>
    rw [List.countP_cons, List.countP_cons, List.countP_cons, List.countP_cons,
      List.countP_cons, ih, cell_bucket (cellAt t.header r col)]
    omega

theorem entriesFor_dim (t : Table) (col : String) (p : PlotRow)
    (hp : p ∈ entriesFor t col) : p.dim = aspectName col := by
  rw [entriesFor, List.mem_filterMap] at hp
  rcases hp with ⟨s, _, hsp⟩
  by_cases h0 : 0 < countLabel t col s
  · rw [if_pos h0] at hsp
    injection hsp with h
    subst h
    rfl
  · rw [if_neg h0] at hsp
    cases hsp

theorem sum_entriesFor (t : Table) (col : String) :
    ((entriesFor t col).map (fun p => p.cnt)).sum
      = countLabel t col "正面" + countLabel t col "负面" + countLabel t col "中性" := by
  rw [entriesFor, SENTIMENTS]
  by_cases h1 : 0 < countLabel t col "正面" <;>
    by_cases h2 : 0 < countLabel t col "负面" <;>
      by_cases h3 : 0 < countLabel t col "中性" <;>
        simp [List.filterMap_cons, h1, h2, h3] <;> omega

theorem aspectName_inj :
    ∀ c1 ∈ LABEL_COLUMNS, ∀ c2 ∈ LABEL_COLUMNS, aspectName c1 = aspectName c2 → c1 = c2 := by
  decide

theorem filter_entriesFor (t : Table) (col col' : String)
    (hcol : col ∈ LABEL_COLUMNS) (hcol' : col' ∈ LABEL_COLUMNS) :
    (entriesFor t col').filter (fun p => p.dim == aspectName col)
      = if col' = col then entriesFor t col' else [] := by
  by_cases e : col' = col
  · subst e
    rw [if_pos rfl]
    apply List.filter_eq_self.mpr
    intro p hp
    rw [entriesFor_dim t col' p hp]
    simp
  · rw [if_neg e, List.filter_eq_nil_iff]
    intro p hp
    rw [entriesFor_dim t col' p hp]
    simp only [beq_iff_eq]
    intro heq
    exact e (aspectName_inj col' hcol' col hcol heq)

theorem plot_filter_dim (t : Table) (col : String) (hcol : col ∈ LABEL_COLUMNS) :
    (plot_data t).filter (fun p => p.dim == aspectName col) = entriesFor t col := by
  rw [plot_data, List.filter_flatMap]
  have hstep : ∀ l : List String, (∀ c ∈ l, c ∈ LABEL_COLUMNS) → l.Nodup → col ∈ l →
      (l.flatMap (fun c => (entriesFor t c).filter (fun p => p.dim == aspectName col)))
        = entriesFor t col := by
    intro l
    induction l with
    | nil => intro _ _ h; cases h
    | cons a l ih =>
      intro hsub hnd hmem
      rw [List.flatMap_cons]
      have hal := List.nodup_cons.mp hnd
      by_cases e : a = col
      · subst e
        rw [filter_entriesFor t a a hcol hcol, if_pos rfl]
        have hrest : (l.flatMap
            (fun c => (entriesFor t c).filter (fun p => p.dim == aspectName a))) = [] := by
          rw [List.flatMap_eq_nil_iff]
          intro c hc
          rw [filter_entriesFor t a c hcol (hsub c (List.mem_cons_of_mem a hc)),
            if_neg (fun hca => hal.1 (by rw [← hca]; exact hc))]
        rw [hrest, List.append_nil]
      · rw [filter_entriesFor t col a hcol (hsub a (List.mem_cons_self a l)), if_neg e,
          List.nil_append]
        exact ih (fun c hc => hsub c (List.mem_cons_of_mem a hc)) hal.2
          ((List.mem_cons.mp hmem).resolve_left (fun h => e h.symm))
  exact hstep LABEL_COLUMNS (fun c h => h) (by decide) hcol

/-- The concrete table for the C10 witness. -/
def exC10 : Table := ⟨["Food#Taste"], [[Cell.str "正面"], [Cell.str "未提及"]]⟩

/-- C10: the mentioned-count splits into the three charted sentiment counts
plus the stray labels outside the four-value set; the ranking chart's
per-dimension total is exactly the three charted counts (strays silently
excluded); hence when every label of the dimension lies in the closed
four-value set, the chart total equals the mentioned-count of the
top-aspect KPI. -/
theorem C10_ranking_totals (t : Table) (col : String) (hcol : col ∈ LABEL_COLUMNS) :
    mentionedCount t col
        = countLabel t col "正面" + countLabel t col "负面" + countLabel t col "中性"
          + strayCount t col
    ∧ aspect_total t (aspectName col)
        = countLabel t col "正面" + countLabel t col "负面" + countLabel t col "中性"
    ∧ ((∀ r ∈ t.rows, inFourSet (cellAt t.header r col) = true) →
        aspect_total t (aspectName col) = mentionedCount t col) := by
  have h1 := mentioned_decomp t col
  have h2 : aspect_total t (aspectName col)
      = countLabel t col "正面" + countLabel t col "负面" + countLabel t col "中性" := by
    rw [aspect_total, plot_filter_dim t col hcol, sum_entriesFor]
  refine ⟨h1, h2, ?_⟩
  intro hall
  have hstray : strayCount t col = 0 := by
    rw [strayCount, List.countP_eq_zero]
    intro r hr
    simp [hall r hr]
  omega

/-- Witness for C10: at a concrete in-set table the chart total matches the
mentioned-count. -/
theorem C10_ranking_totals_witness :
    aspect_total exC10 (aspectName "Food#Taste") = mentionedCount exC10 "Food#Taste" :=
  (C10_ranking_totals exC10 "Food#Taste" (by decide)).2.2 (by decide)

end JD
